import Mathlib

/-!
Shallow embedding of the everythingrl content-generation server
(src/server/game_types.py, src/server/ai.py, src/server/app.py)
and proofs about the claims of its specification.
-/

namespace EverythingRL

/-! ### Content schema: src/server/game_types.py -/

/-- The closed color palette (`class Color(str, Enum)`). -/
inductive Color
  | lightgray | yellow | gold | orange | pink | red | maroon | green | lime
  | skyblue | blue | purple | violet | beige | brown | white | magenta
  | silver | gray | grey | black
deriving DecidableEq, Repr

/-- Parsing a raw string into the `Color` enum (`Color(v)`); `none` models
the `ValueError` pydantic raises for a value outside the palette. -/
def Color.ofString? (s : String) : Option Color :=
  match s with
  | "lightgray" => some .lightgray
  | "yellow" => some .yellow
  | "gold" => some .gold
  | "orange" => some .orange
  | "pink" => some .pink
  | "red" => some .red
  | "maroon" => some .maroon
  | "green" => some .green
  | "lime" => some .lime
  | "skyblue" => some .skyblue
  | "blue" => some .blue
  | "purple" => some .purple
  | "violet" => some .violet
  | "beige" => some .beige
  | "brown" => some .brown
  | "white" => some .white
  | "magenta" => some .magenta
  | "silver" => some .silver
  | "gray" => some .gray
  | "grey" => some .grey
  | "black" => some .black
  | _ => none

/-- `fix_color` wrap validator: try `Color(v)`; on `ValueError` substitute
`"lightgray"`. Total: every string validates to some color. -/
def fix_color (v : String) : Color :=
  (Color.ofString? v).getD Color.lightgray

/-- The closed pokemon-type vocabulary (`class PokemonType(str, Enum)`). -/
inductive PokemonType
  | normal | fire | water | electric | grass | ice | fighting | poison
  | ground | flying | psychic | bug | rock | ghost | dragon | dark
  | steel | fairy
deriving DecidableEq, Repr

/-- Parsing a raw string into the `PokemonType` enum (`PokemonType(v)`). -/
def PokemonType.ofString? (s : String) : Option PokemonType :=
  match s with
  | "normal" => some .normal
  | "fire" => some .fire
  | "water" => some .water
  | "electric" => some .electric
  | "grass" => some .grass
  | "ice" => some .ice
  | "fighting" => some .fighting
  | "poison" => some .poison
  | "ground" => some .ground
  | "flying" => some .flying
  | "psychic" => some .psychic
  | "bug" => some .bug
  | "rock" => some .rock
  | "ghost" => some .ghost
  | "dragon" => some .dragon
  | "dark" => some .dark
  | "steel" => some .steel
  | "fairy" => some .fairy
  | _ => none

/-- `fix_type` wrap validator: try `PokemonType(v)`; on `ValueError`
substitute `"normal"`. Total: every string validates to some type. -/
def fix_type (v : String) : PokemonType :=
  (PokemonType.ofString? v).getD PokemonType.normal

/-- `class MapGen(str, Enum)`: map-generation styles. No wrap validator. -/
inductive MapGen
  | simple_rooms_and_corridors | caves | hive | dense_rooms
deriving DecidableEq, Repr

/-- Parsing a raw string into `MapGen` (strict, no coercion in the source). -/
def MapGen.ofString? (s : String) : Option MapGen :=
  match s with
  | "simple_rooms_and_corridors" => some .simple_rooms_and_corridors
  | "caves" => some .caves
  | "hive" => some .hive
  | "dense_rooms" => some .dense_rooms
  | _ => none

/-- `class ItemKind(str, Enum)`: item kinds. No wrap validator in the
source, unlike `Color` and `PokemonType`. -/
inductive ItemKind
  | armor | melee_weapon | ranged_weapon | food
deriving DecidableEq, Repr

/-- Parsing a raw string into `ItemKind` (strict, no coercion in the
source: an invalid value is a pydantic validation failure). -/
def ItemKind.ofString? (s : String) : Option ItemKind :=
  match s with
  | "armor" => some .armor
  | "melee_weapon" => some .melee_weapon
  | "ranged_weapon" => some .ranged_weapon
  | "food" => some .food
  | _ => none

/-- `class Monster(pydantic.BaseModel)`. `level` and `speed` are plain
ints in the source, with no range constraint declared. -/
structure Monster where
  name : String
  char : String
  level : Int
  color : Color
  type1 : PokemonType
  type2 : Option PokemonType := none
  attack_type : PokemonType
  description : String
  seen : String
  attack : String
  death : String
  ranged : Bool
  speed : Int
deriving DecidableEq, Repr

/-- `class Boss(pydantic.BaseModel)`. -/
structure Boss where
  name : String
  char : String
  color : Color
  type1 : PokemonType
  type2 : Option PokemonType := none
  attack_type : PokemonType
  description : String
  intro_message : String
  attack_messages : List String
  periodic_messages : List String
  game_victory_paragraph : String
deriving DecidableEq, Repr

/-- `class Area(pydantic.BaseModel)`. -/
structure Area where
  name : String
  blurb : String
  mapgen : MapGen
  enemies : List String
  equipment : List String
  melee_weapons : List String
  ranged_weapons : List String
  food : List String
deriving DecidableEq, Repr

/-- `class Item(pydantic.BaseModel)`. -/
structure Item where
  name : String
  level : Int
  type : PokemonType
  description : String
  kind : ItemKind
deriving DecidableEq, Repr

/-- `class Character(pydantic.BaseModel)`. -/
structure Character where
  name : String
  backstory : String
  starting_items : List String
deriving DecidableEq, Repr

/-- `class SettingDesc(pydantic.BaseModel)`. -/
structure SettingDesc where
  setting_desc : String
deriving DecidableEq, Repr

/-- `class AiAction(pydantic.BaseModel)`: the sparse edit operation; every
field is optional with default `None`. -/
structure AiAction where
  set_setting_desc : Option String := none
  add_area : Option Area := none
  add_monster_def : Option Monster := none
  add_item_def : Option Item := none
  set_boss : Option Boss := none
  add_character : Option Character := none
deriving DecidableEq, Repr

/-- `class GameState(pydantic.BaseModel)`: the aggregate root. -/
structure GameState where
  theme : Option String := none
  setting_desc : Option String := none
  areas : List Area := []
  monsters : List Monster := []
  items : List Item := []
  boss : Option Boss := none
  characters : List Character := []
deriving DecidableEq, Repr

/-! ### GameState.apply_action (game_types.py lines 165-190) -/

/-- The `add_area` branch: `for (i, area) in enumerate(self.areas): if
area.name == action.add_area.name: self.areas[i] = ...; break` with a
`for ... else` that appends when no entry matched. Replace the first
name match in place, else append. -/
def addAreaList (areas : List Area) (a : Area) : List Area :=
  match areas with
  | [] => [a]
  | x :: xs => if x.name = a.name then a :: xs else x :: addAreaList xs a

/-- The `add_monster_def` branch as written in the source: the loop body
replaces every name match in place but has no `break`, so the loop always
finishes without breaking and the `for ... else` clause always appends. -/
def addMonsterList (monsters : List Monster) (m : Monster) : List Monster :=
  (monsters.map (fun x => if x.name = m.name then m else x)) ++ [m]

/-- The `add_item_def` branch, identical in shape to the monster branch:
replace every name match, then always append (no `break` in the loop). -/
def addItemList (items : List Item) (it : Item) : List Item :=
  (items.map (fun x => if x.name = it.name then it else x)) ++ [it]

/-- `GameState.apply_action`: apply every populated field of the action in
source order. `if action.set_setting_desc:` is a Python truthiness test,
so the empty string is skipped like `None`. The Python method mutates
`self`; here it returns the updated state. -/
def GameState.apply_action (s : GameState) (action : AiAction) : GameState :=
  let s1 := match action.set_setting_desc with
    | some d => if d = "" then s else { s with setting_desc := some d }
    | none => s
  let s2 := match action.add_area with
    | some a => { s1 with areas := addAreaList s1.areas a }
    | none => s1
  let s3 := match action.add_monster_def with
    | some m => { s2 with monsters := addMonsterList s2.monsters m }
    | none => s2
  let s4 := match action.add_item_def with
    | some it => { s3 with items := addItemList s3.items it }
    | none => s3
  let s5 := match action.set_boss with
    | some b => { s4 with boss := some b }
    | none => s4
  match action.add_character with
  | some c => { s5 with characters := s5.characters ++ [c] }
  | none => s5

/-! ### Model gateway: src/server/ai.py lines 54-120 -/

/-- The four harm categories named in `get_safety_error`; these are the
categories the source configures in `safety_settings` and matches on. -/
inductive HarmCategory
  | hate_speech | dangerous_content | harassment | sexually_explicit
deriving DecidableEq, Repr

/-- One entry of `candidate.safety_ratings`: a category and its
probability enum value (the source compares it with `> 1`). -/
structure SafetyRating where
  category : HarmCategory
  probability : Nat
deriving DecidableEq, Repr

/-- The short human-readable tag appended per category in the `match` of
`get_safety_error`. -/
def harmTag : HarmCategory → String
  | .hate_speech => "hateful"
  | .dangerous_content => "dangerous"
  | .harassment => "harrassment"
  | .sexually_explicit => "too horny"

/-- The accumulation loop of `get_safety_error`: for each rating with
`rating.probability > 1`, append the tag of its category. -/
def safetyIssues : List SafetyRating → List String
  | [] => []
  | r :: rs =>
      if 1 < r.probability then harmTag r.category :: safetyIssues rs
      else safetyIssues rs

/-- `get_safety_error`: the message of the `AiError` built from the
ratings, `", ".join(safety_issues)`. -/
def get_safety_error (ratings : List SafetyRating) : String :=
  String.intercalate ", " (safetyIssues ratings)

/-- `candidate.finish_reason` values distinguished by the source. -/
inductive FinishReason
  | stop | safety | other
deriving DecidableEq, Repr

/-- One response candidate: finish reason, safety ratings, and the text of
its first content part. -/
structure Candidate where
  finish_reason : FinishReason
  safety_ratings : List SafetyRating
  text : String
deriving DecidableEq, Repr

/-- One backend interaction outcome: either the API raises
`ResourceExhausted` (rate limit) or it returns a response with a list of
candidates. A list of these is the oracle for successive requests. -/
inductive BackendReply
  | resourceExhausted
  | response (candidates : List Candidate)
deriving DecidableEq, Repr

/-- One request actually issued to `model.generate_content`: the joined
prompt parts and the system instruction the `GenerativeModel` was built
with. -/
structure Request where
  prompt : String
  system_instruction : Option String
deriving DecidableEq, Repr

/-- Python `str.strip(chars)`: remove characters in the set from both ends. -/
def stripChars (cs : List Char) (s : String) : String :=
  String.mk (((s.toList.dropWhile (fun c => cs.contains c)).reverse.dropWhile
    (fun c => cs.contains c)).reverse)

/-- The post-processing of the candidate text:
`text.strip("--").strip("```json").strip("```").strip("\n")`. -/
def stripText (t : String) : String :=
  stripChars "\n".toList (stripChars "```".toList
    (stripChars "```json".toList (stripChars "--".toList t)))

/-- Result of `ask_google_vertex_ai` as seen by the caller. -/
inductive AiResult
  | ok (text : String)
  | aiError (msg : String)
  | indexError
  | noResponse
deriving DecidableEq, Repr

/-- `ask_google_vertex_ai`, driven by a finite backend oracle; returns the
trace of requests issued together with the outcome. On `ResourceExhausted`
the source sleeps one second and recurses as
`ask_google_vertex_ai(prompt_parts)` — with `system_instruction` left to
its default `None`, so the retried request carries no system instruction.
On a candidate with finish reason SAFETY it raises the `AiError` built by
`get_safety_error` without issuing another request; an empty candidate
list is the `IndexError` path; an exhausted oracle models the
never-answered unbounded recursion. -/
def ask_google_vertex_ai (backend : List BackendReply) (prompt_parts : List String)
    (system_instruction : Option String := none) : List Request × AiResult :=
  let req : Request := { prompt := String.join prompt_parts, system_instruction }
  match backend with
  | [] => ([], AiResult.noResponse)
  | BackendReply.resourceExhausted :: rest =>
      let out := ask_google_vertex_ai rest prompt_parts
      (req :: out.1, out.2)
  | BackendReply.response candidates :: _ =>
      match candidates with
      | [] => ([req], AiResult.indexError)
      | c :: _ =>
          if c.finish_reason = FinishReason.safety then
            ([req], AiResult.aiError (get_safety_error c.safety_ratings))
          else
            ([req], AiResult.ok (stripText c.text))

/-! ### Structured extraction: src/server/ai.py lines 123-164 -/

/-- The response-processing loop of `ask_google_structured`: iterate over
the split lines, `try` to parse and validate each one, append the record
to `output` on success, log and skip on any exception. `validate` stands
for `model(**json.loads(response)).model_dump()`: `none` when the line
fails to parse as JSON or fails pydantic validation. -/
def extractLoop {α : Type} (validate : String → Option α) :
    List String → List α → List α
  | [], output => output
  | l :: ls, output =>
      match validate l with
      | some r => extractLoop validate ls (output ++ [r])
      | none => extractLoop validate ls output

/-- The response handling of `ask_google_structured`: split the gateway
response text on newlines (`response_text.split("\n")`) and run the
per-line parse-and-validate loop starting from an empty output list. -/
def ask_google_structured {α : Type} (validate : String → Option α)
    (response_text : String) : List α :=
  extractLoop validate (response_text.splitOn "\n") []

/-! ### Callers indexing the extraction result: ai.py lines 245-328 -/

/-- The message of the exception Python raises for `[][0]`. -/
def indexErrorMsg : String := "IndexError: list index out of range"

/-- `gen_setting_desc`: returns
`ask_google_structured(...)[0]["setting_desc"]`; indexing the first
record raises `IndexError` when the extraction result is empty. -/
def gen_setting_desc (validate : String → Option SettingDesc)
    (response_text : String) : Except String String :=
  match ask_google_structured validate response_text with
  | [] => Except.error indexErrorMsg
  | x :: _ => Except.ok x.setting_desc

/-- `gen_boss`: returns `ask_google_structured(...)[0]`; raises
`IndexError` on an empty extraction result. -/
def gen_boss (validate : String → Option Boss)
    (response_text : String) : Except String Boss :=
  match ask_google_structured validate response_text with
  | [] => Except.error indexErrorMsg
  | x :: _ => Except.ok x

/-- `craft`: returns `ask_google_structured(...)[0]`; raises `IndexError`
on an empty extraction result. -/
def craft (validate : String → Option Item)
    (response_text : String) : Except String Item :=
  match ask_google_structured validate response_text with
  | [] => Except.error indexErrorMsg
  | x :: _ => Except.ok x

/-! ### Pydantic validation of raw enum-typed fields (game_types.py) -/

/-- Raw (pre-validation) input for `Monster`: the enum-typed fields arrive
as arbitrary strings from the model, the ints and bools already typed. -/
structure RawMonster where
  name : String
  char : String
  level : Int
  color : String
  type1 : String
  type2 : Option String := none
  attack_type : String
  description : String
  seen : String
  attack : String
  death : String
  ranged : Bool
  speed : Int
deriving DecidableEq, Repr

/-- Raw (pre-validation) input for `Item`. -/
structure RawItem where
  name : String
  level : Int
  type : String
  description : String
  kind : String
deriving DecidableEq, Repr

/-- Pydantic validation of `Monster`: `color` goes through the
`fix_color` wrap validator, `type1`/`type2`/`attack_type` through
`fix_type`, all total; `level` and `speed` are plain `int` fields with no
declared constraint, passed through unchanged. Validation of a
`RawMonster` therefore never fails. -/
def validateMonster (r : RawMonster) : Option Monster :=
  some
    { name := r.name
      char := r.char
      level := r.level
      color := fix_color r.color
      type1 := fix_type r.type1
      type2 := r.type2.map fix_type
      attack_type := fix_type r.attack_type
      description := r.description
      seen := r.seen
      attack := r.attack
      death := r.death
      ranged := r.ranged
      speed := r.speed }

/-- Pydantic validation of `Item`: `type` is coerced by `fix_type`, but
`kind` is a bare `ItemKind` enum with no wrap validator, so an
out-of-vocabulary kind is a validation failure (`none`). -/
def validateItem (r : RawItem) : Option Item :=
  (ItemKind.ofString? r.kind).map (fun k =>
    { name := r.name
      level := r.level
      type := fix_type r.type
      description := r.description
      kind := k })

/-! ### The ai module namespace and the /v1/anything handler (app.py) -/

/-- Every top-level name bound in module `ai` (src/server/ai.py): imports,
module constants, and function/class definitions, in source order. No
`gen_anything` is defined anywhere in the module. -/
def aiModuleNames : List String :=
  ["json", "logging", "os", "time", "cache", "cast", "Type",
   "pydantic", "requests", "Retry", "HTTPAdapter",
   "google", "vertexai", "GenerativeModel", "GenerationResponse",
   "generative_models", "game_types",
   "MISTRAL_API_URL", "MISTRAL_API_KEY", "AISTUDIO_API_KEY",
   "DIR_PATH", "USE_VERTEX_AI",
   "get_test_str", "get_test_json",
   "retry_strategy", "adapter", "session",
   "AiError", "get_safety_error",
   "ask_google_vertex_ai", "ask_google", "ask_google_structured",
   "ask_google_big_prompt", "ask_google_json_merge",
   "gen_monsters", "gen_items", "gen_setting_desc", "gen_areas",
   "gen_boss", "craft", "gen_characters"]

/-- Python attribute lookup on a module: the attribute resolves iff the
name is bound in the module namespace. -/
def moduleHasAttr (names : List String) (attr : String) : Bool :=
  names.contains attr

/-- `PREGEN_THEME = "pregen"` (app.py). -/
def PREGEN_THEME : String := "pregen"

/-- Outcome of the `/v1/anything` handler body. -/
inductive HandlerOutcome
  | fixture
  | generated (s : GameState)
  | attrError (missing : String)
deriving DecidableEq, Repr

/-- `v1_anything` (app.py lines 133-142), after the request body has been
validated into a `GameState`: the pregen sentinel returns the fixture;
otherwise the handler evaluates `ai.gen_anything`, which resolves via
module attribute lookup and raises `AttributeError` when absent, before
any edit operation is produced or applied. -/
def v1_anything (game_state : GameState) : HandlerOutcome :=
  if game_state.theme = some PREGEN_THEME then
    HandlerOutcome.fixture
  else if moduleHasAttr aiModuleNames "gen_anything" then
    HandlerOutcome.generated game_state
  else
    HandlerOutcome.attrError "gen_anything"

/-! ### Single-field projections of AiAction (for the merge-order claim) -/

/-- The action keeping only the `set_setting_desc` field. -/
def AiAction.onlySetting (a : AiAction) : AiAction :=
  { set_setting_desc := a.set_setting_desc }

/-- The action keeping only the `add_area` field. -/
def AiAction.onlyArea (a : AiAction) : AiAction :=
  { add_area := a.add_area }

/-- The action keeping only the `add_monster_def` field. -/
def AiAction.onlyMonster (a : AiAction) : AiAction :=
  { add_monster_def := a.add_monster_def }

/-- The action keeping only the `add_item_def` field. -/
def AiAction.onlyItem (a : AiAction) : AiAction :=
  { add_item_def := a.add_item_def }

/-- The action keeping only the `set_boss` field. -/
def AiAction.onlyBoss (a : AiAction) : AiAction :=
  { set_boss := a.set_boss }

/-- The action keeping only the `add_character` field. -/
def AiAction.onlyCharacter (a : AiAction) : AiAction :=
  { add_character := a.add_character }

/-- Number of populated (non-`None`) fields of an action. -/
def AiAction.populatedCount (a : AiAction) : Nat :=
  (cond a.set_setting_desc.isSome 1 0) + (cond a.add_area.isSome 1 0) +
  (cond a.add_monster_def.isSome 1 0) + (cond a.add_item_def.isSome 1 0) +
  (cond a.set_boss.isSome 1 0) + (cond a.add_character.isSome 1 0)

/-! ### Concrete fixtures used in witnesses and counterexamples -/

/-- A concrete monster value for counterexamples. -/
def gridBug : Monster :=
  { name := "Grid Bug", char := "x", level := 1, color := Color.purple,
    type1 := PokemonType.bug, type2 := none,
    attack_type := PokemonType.electric,
    description := "A buzzing electric pest.", seen := "It buzzes.",
    attack := "It zaps you.", death := "It fizzles out.",
    ranged := false, speed := 1 }

/-- The single-field edit operation adding `gridBug`. -/
def gridBugAction : AiAction := { add_monster_def := some gridBug }

/-- An empty game state with a theme, as built by the callers. -/
def seedState : GameState := { theme := some "NetHack" }

/-- A state already holding `gridBug`, its monster names trivially
pairwise distinct. -/
def gridBugState : GameState := { theme := some "NetHack", monsters := [gridBug] }

/-- A concrete boss value for witnesses. -/
def testBoss : Boss :=
  { name := "Wyrm", char := "W", color := Color.red,
    type1 := PokemonType.dragon, type2 := none,
    attack_type := PokemonType.fire, description := "A great wyrm.",
    intro_message := "The Wyrm stirs.", attack_messages := ["It breathes fire."],
    periodic_messages := ["The cavern rumbles."],
    game_victory_paragraph := "The Wyrm falls." }

/-- An action populating two fields, for the multi-field merge witness. -/
def twoFieldAction : AiAction :=
  { set_setting_desc := some "A dark dungeon.", set_boss := some testBoss }

/-- A candidate whose finish reason is SAFETY, with one rating over the
threshold per blocked category and one under it. -/
def safetyCandidate : Candidate :=
  { finish_reason := FinishReason.safety
    safety_ratings :=
      [{ category := HarmCategory.hate_speech, probability := 3 },
       { category := HarmCategory.sexually_explicit, probability := 1 },
       { category := HarmCategory.dangerous_content, probability := 2 }]
    text := "" }

/-- A successful candidate, for the rate-limit retry trace. -/
def okCandidate : Candidate :=
  { finish_reason := FinishReason.stop, safety_ratings := [], text := "x" }

/-- A raw monster whose `level` and `speed` lie outside the documented
1-3 ranges. -/
def outOfRangeRawMonster : RawMonster :=
  { name := "Moloch", char := "M", level := 99, color := "red",
    type1 := "fire", type2 := none, attack_type := "fire",
    description := "Huge.", seen := "It roars.", attack := "It smashes.",
    death := "It collapses.", ranged := false, speed := 0 }

/-- A raw item whose `kind` is outside the `ItemKind` vocabulary. -/
def badKindRawItem : RawItem :=
  { name := "Strange Brew", level := 1, type := "water",
    description := "Bubbling.", kind := "potion" }

/-! ### Theorems -/

/-- Claim C1: applying the same add/replace EditOperation twice was
claimed idempotent for `add_area`, `add_monster_def` and `add_item_def`
alike. The code refutes it for `add_monster_def`: its upsert loop lacks
the `break` of the area branch, so the `for ... else` always appends, and
at the concrete input below the second application duplicates the
monster instead of leaving the state unchanged. -/
theorem apply_monster_action_twice_differs :
    GameState.apply_action (GameState.apply_action seedState gridBugAction)
        gridBugAction
      ≠ GameState.apply_action seedState gridBugAction := by
  decide

/-- Claim C2: name uniqueness was claimed preserved by every single
action. The code refutes it: starting from a state whose monster names
are pairwise distinct, applying an action that names an existing monster
replaces it and also appends it, leaving a duplicated name. -/
theorem apply_action_breaks_name_uniqueness :
    (gridBugState.monsters.map Monster.name).Nodup ∧
    ¬ (((GameState.apply_action gridBugState gridBugAction).monsters.map
        Monster.name).Nodup) := by
  constructor
  · decide
  · decide

/-- Claim C3: module `ai` binds no top-level name `gen_anything`, so for
every request whose state has a non-pregen theme the `/v1/anything`
handler fails with an attribute error before producing or applying any
edit operation. -/
theorem v1_anything_gen_anything_absent :
    moduleHasAttr aiModuleNames "gen_anything" = false ∧
    ∀ s : GameState, s.theme ≠ some PREGEN_THEME →
      v1_anything s = HandlerOutcome.attrError "gen_anything" := by
  refine ⟨by decide, fun s hs => ?_⟩
  unfold v1_anything
  rw [if_neg hs, if_neg (by decide)]

/-- Witness for claim C3 at the concrete theme of the repository's own
test: a state themed "Microcenter" is not the pregen sentinel and the
handler answers with the attribute error. -/
theorem v1_anything_gen_anything_absent_witness :
    ({ theme := some "Microcenter" } : GameState).theme ≠ some PREGEN_THEME ∧
    v1_anything { theme := some "Microcenter" }
      = HandlerOutcome.attrError "gen_anything" :=
  ⟨by decide, v1_anything_gen_anything_absent.2 _ (by decide)⟩

/-- The accumulation loop of `ask_google_structured` computes the
accumulator followed by `filterMap` of the remaining lines. -/
theorem extractLoop_eq_filterMap {α : Type} (validate : String → Option α) :
    ∀ (ls : List String) (output : List α),
      extractLoop validate ls output = output ++ ls.filterMap validate := by
  intro ls
  induction ls with
  | nil => intro output; simp [extractLoop]
  | cons l ls ih =>
      intro output
      cases h : validate l with
      | none => simp [extractLoop, h, ih]
      | some r => simp [extractLoop, h, ih]

/-- Mapping a constantly-failing validator over any list of lines yields
the empty record list. -/
theorem filterMap_const_none {α β : Type} (l : List α) :
    l.filterMap (fun _ => (none : Option β)) = [] := by
  induction l with
  | nil => rfl
  | cons x xs ih => simp [List.filterMap_cons, ih]

/-- Claim C4: for every gateway response text, `ask_google_structured`
splits the text on newlines, validates each line independently, and
returns exactly the records of the lines that parse and validate, in
original line order (`filterMap` over the split); a failing line is
skipped without raising, and the empty list is a possible return value
(here: on a response none of whose lines validate). -/
theorem ask_google_structured_filters_lines :
    (∀ (α : Type) (validate : String → Option α) (response_text : String),
        ask_google_structured validate response_text
          = (response_text.splitOn "\n").filterMap validate) ∧
    (ask_google_structured (fun _ => (none : Option Monster)) "bad\nworse\nbad"
      = []) := by
  constructor
  · intro α validate response_text
    simp [ask_google_structured, extractLoop_eq_filterMap]
  · simp [ask_google_structured, extractLoop_eq_filterMap, filterMap_const_none]

/-- Claim C5: the rate-limit retry was claimed to resend the identical
request, system instruction included. The code refutes it: the recursive
call `ask_google_vertex_ai(prompt_parts)` leaves `system_instruction` at
its default `None`, so at the concrete run below the retried request
carries no system instruction although the original carried one. -/
theorem retry_drops_system_instruction :
    ask_google_vertex_ai
        [BackendReply.resourceExhausted, BackendReply.response [okCandidate]]
        ["p"] (some "sys")
      = ([{ prompt := "p", system_instruction := some "sys" },
          { prompt := "p", system_instruction := none }],
         AiResult.ok "x") := by
  decide

/-- Counterexample to claim C6: `gen_setting_desc`, `gen_boss` and
`craft` all index `[0]` into the extraction result, so on a response from
which zero records validate each raises `IndexError` instead of
completing. -/
theorem empty_extraction_raises_in_callers :
    gen_setting_desc (fun _ => none) "" = Except.error indexErrorMsg ∧
    gen_boss (fun _ => none) "" = Except.error indexErrorMsg ∧
    craft (fun _ => none) "" = Except.error indexErrorMsg := by
  refine ⟨?_, ?_, ?_⟩
  · unfold gen_setting_desc
    rw [show ask_google_structured (fun _ => (none : Option SettingDesc)) "" = []
      by simp [ask_google_structured, extractLoop_eq_filterMap, filterMap_const_none]]
  · unfold gen_boss
    rw [show ask_google_structured (fun _ => (none : Option Boss)) "" = []
      by simp [ask_google_structured, extractLoop_eq_filterMap, filterMap_const_none]]
  · unfold craft
    rw [show ask_google_structured (fun _ => (none : Option Item)) "" = []
      by simp [ask_google_structured, extractLoop_eq_filterMap, filterMap_const_none]]

/-- Claim C6 as amended: the three callers that index the first record —
`gen_setting_desc`, `gen_boss`, `craft` — raise `IndexError` exactly when
structured extraction returns zero validated records, and otherwise
return the first record. -/
theorem callers_index_error_iff_empty_extraction :
    (∀ (validate : String → Option SettingDesc) (t : String),
        gen_setting_desc validate t = Except.error indexErrorMsg
          ↔ ask_google_structured validate t = []) ∧
    (∀ (validate : String → Option Boss) (t : String),
        gen_boss validate t = Except.error indexErrorMsg
          ↔ ask_google_structured validate t = []) ∧
    (∀ (validate : String → Option Item) (t : String),
        craft validate t = Except.error indexErrorMsg
          ↔ ask_google_structured validate t = []) := by
  refine ⟨fun validate t => ?_, fun validate t => ?_, fun validate t => ?_⟩
  · unfold gen_setting_desc
    cases h : ask_google_structured validate t <;> simp
  · unfold gen_boss
    cases h : ask_google_structured validate t <;> simp
  · unfold craft
    cases h : ask_google_structured validate t <;> simp

/-- Counterexample to claim C7: not every enum-typed field of `Item`
coerces on invalid input. `kind` has no wrap validator, so an item whose
kind is "potion" fails validation instead of receiving a default. -/
theorem invalid_item_kind_rejected :
    validateItem badKindRawItem = none := by
  decide

/-- Claim C7 as amended: the color and pokemon-type fields of `Monster`
and `Item` substitute their documented defaults ("lightgray", "normal")
for out-of-vocabulary values and never fail, so `Monster` validation is
total over raw enum inputs; but `Item`'s `kind` field is validated
strictly, so `Item` validation succeeds exactly when the kind is in the
closed vocabulary. -/
theorem enum_coercion_except_item_kind :
    (∀ r : RawMonster, (validateMonster r).isSome = true) ∧
    (∀ v : String, Color.ofString? v = none → fix_color v = Color.lightgray) ∧
    (∀ v : String, PokemonType.ofString? v = none →
        fix_type v = PokemonType.normal) ∧
    (∀ r : RawItem, ((validateItem r).isSome = true
        ↔ (ItemKind.ofString? r.kind).isSome = true)) := by
  refine ⟨fun r => rfl, fun v hv => ?_, fun v hv => ?_, fun r => ?_⟩
  · simp [fix_color, hv]
  · simp [fix_type, hv]
  · unfold validateItem
    cases ItemKind.ofString? r.kind <;> simp

/-- Witness for the amended claim C7 at concrete invalid enum values:
"chartreuse" is outside the palette and validates as lightgray,
"cosmic" is outside the type vocabulary and validates as normal. -/
theorem enum_coercion_except_item_kind_witness :
    Color.ofString? "chartreuse" = none ∧
    fix_color "chartreuse" = Color.lightgray ∧
    PokemonType.ofString? "cosmic" = none ∧
    fix_type "cosmic" = PokemonType.normal :=
  ⟨by decide, enum_coercion_except_item_kind.2.1 "chartreuse" (by decide),
   by decide, enum_coercion_except_item_kind.2.2.1 "cosmic" (by decide)⟩

/-- Counterexample to claim C8: a monster whose level (99) and speed (0)
are outside the documented 1-3 ranges is accepted by validation, not
rejected. -/
theorem out_of_range_monster_accepted :
    (validateMonster outOfRangeRawMonster).isSome = true ∧
    ¬ (1 ≤ outOfRangeRawMonster.level ∧ outOfRangeRawMonster.level ≤ 3) ∧
    ¬ (1 ≤ outOfRangeRawMonster.speed ∧ outOfRangeRawMonster.speed ≤ 3) := by
  refine ⟨rfl, by decide, by decide⟩

/-- Claim C8 as amended: `Monster.level` and `Monster.speed` are plain
int fields with no schema constraint; every raw monster validates, and
its level and speed are passed through unchanged whatever their values.
The 1-3 ranges are only requested in the generation prompt text. -/
theorem monster_level_speed_unconstrained :
    ∀ r : RawMonster, ∃ m : Monster,
      validateMonster r = some m ∧ m.level = r.level ∧ m.speed = r.speed := by
  intro r
  exact ⟨_, rfl, rfl, rfl⟩

/-- Claim C9: applying an action with several populated fields equals
applying its single-field restrictions one after another in the fixed
source order: setting description, area, monster, item, boss, character. -/
theorem apply_action_decomposes (s : GameState) (a : AiAction)
    (h : 1 < a.populatedCount) :
    GameState.apply_action s a =
      GameState.apply_action (GameState.apply_action (GameState.apply_action
        (GameState.apply_action (GameState.apply_action
          (GameState.apply_action s a.onlySetting)
          a.onlyArea) a.onlyMonster) a.onlyItem) a.onlyBoss)
        a.onlyCharacter := by
  obtain ⟨ss, ar, mo, it, bo, ch⟩ := a
  cases ss <;> cases ar <;> cases mo <;> cases it <;> cases bo <;> cases ch <;> rfl

/-- Witness for claim C9: a concrete action populating both the setting
description and the boss decomposes into the two single-field
applications. -/
theorem apply_action_decomposes_witness :
    1 < twoFieldAction.populatedCount ∧
    GameState.apply_action seedState twoFieldAction =
      GameState.apply_action (GameState.apply_action (GameState.apply_action
        (GameState.apply_action (GameState.apply_action
          (GameState.apply_action seedState twoFieldAction.onlySetting)
          twoFieldAction.onlyArea) twoFieldAction.onlyMonster)
        twoFieldAction.onlyItem) twoFieldAction.onlyBoss)
        twoFieldAction.onlyCharacter :=
  ⟨by decide, apply_action_decomposes seedState twoFieldAction (by decide)⟩

/-- The tag accumulation of `get_safety_error` lists exactly the tags of
the rating categories whose probability exceeds the threshold, in rating
order. -/
theorem safetyIssues_eq_filter_map (ratings : List SafetyRating) :
    safetyIssues ratings
      = (ratings.filter (fun r => decide (1 < r.probability))).map
          (fun r => harmTag r.category) := by
  induction ratings with
  | nil => rfl
  | cons r rs ih =>
      by_cases h : 1 < r.probability
      · simp [safetyIssues, List.filter_cons, h, ih]
      · simp [safetyIssues, List.filter_cons, h, ih]

/-- Claim C10: when the first candidate is blocked with finish reason
SAFETY, the gateway raises an `AiError` whose message joins one short tag
per rating whose probability exceeds the threshold, and it issues no
further backend request — the trace is the single original request,
whatever replies the backend still held. -/
theorem safety_block_raises_without_retry
    (rest : List BackendReply) (prompt_parts : List String)
    (system_instruction : Option String) (c : Candidate) (cs : List Candidate)
    (h : c.finish_reason = FinishReason.safety) :
    ask_google_vertex_ai (BackendReply.response (c :: cs) :: rest)
        prompt_parts system_instruction
      = ([{ prompt := String.join prompt_parts, system_instruction }],
         AiResult.aiError (String.intercalate ", "
           ((c.safety_ratings.filter (fun r => decide (1 < r.probability))).map
             (fun r => harmTag r.category)))) := by
  simp [ask_google_vertex_ai, h, get_safety_error, safetyIssues_eq_filter_map]

/-- Witness for claim C10 at a concrete blocked candidate: of the three
ratings only hate speech (3) and dangerous content (2) exceed the
threshold, and the error message joins their tags in rating order after
the one and only request. -/
theorem safety_block_raises_without_retry_witness :
    safetyCandidate.finish_reason = FinishReason.safety ∧
    ask_google_vertex_ai
        [BackendReply.response [safetyCandidate],
         BackendReply.response [okCandidate]] ["p"] none
      = ([{ prompt := String.join ["p"], system_instruction := none }],
         AiResult.aiError (String.intercalate ", "
           ((safetyCandidate.safety_ratings.filter
              (fun r => decide (1 < r.probability))).map
             (fun r => harmTag r.category)))) :=
  ⟨rfl, safety_block_raises_without_retry [BackendReply.response [okCandidate]]
    ["p"] none safetyCandidate [] rfl⟩

end EverythingRL
